import Mathlib

/-!
Verification of the balloon telemetry program (src/software/telemetry).

Shallow embedding conventions:
* Rust `f32` arithmetic is modelled over `ℚ` at the driver level (every claim
  there is either exact power-of-two fixed-point arithmetic, which `f32`
  performs exactly at these magnitudes, or carries an explicit numeric
  tolerance) and over `ℝ` at the packet level, where the barometric formula
  uses a real power function (`powf`).
* The I2C bus is modelled by a register map `Nat → Except Unit Nat` giving the
  byte answered for each register address (`.error` = bus I/O failure), and by
  a write channel `Nat → Nat → Except Unit Unit` for register writes.
* `rand::thread_rng().gen_range(lo..=hi)` draws are passed explicitly as a
  `SimDraws` record; `SimDraws.InRange` captures the bounds of the ranges the
  source samples from.
* Timing (`thread::sleep`, settle delays) has no data effect and is elided.
-/

namespace Balloon

/-- Two's-complement reinterpretation of the low 16 bits of a natural number,
as performed by Rust `i16` arithmetic (bits shifted past the width wrap). -/
def toI16 (n : Nat) : ℤ :=
  if n % 65536 < 32768 then (n % 65536 : ℤ) else (n % 65536 : ℤ) - 65536

/-- `((msb as i16) << 8) | (lsb as i16)` for two register bytes, as in
`MPL115A2::read_calibration_coefficients` and `MPU6050::read_register_16`:
the shifted high byte has zero low bits, so the bitwise or is addition, and
the `i16` shift wraps modulo 2^16. -/
def decodeS16 (msb lsb : Nat) : ℤ :=
  toI16 ((msb % 256) * 256 + lsb % 256)

/-! ## MPL115A2 barometric pressure sensor (src/i2c/MPL115A2.rs) -/

def MPL115A2.REGISTER_PRESSURE_MSB : Nat := 0x00
def MPL115A2.REGISTER_PRESSURE_LSB : Nat := 0x01
def MPL115A2.REGISTER_TEMP_MSB : Nat := 0x02
def MPL115A2.REGISTER_TEMP_LSB : Nat := 0x03
def MPL115A2.REGISTER_A0_COEFF_MSB : Nat := 0x04
def MPL115A2.REGISTER_A0_COEFF_LSB : Nat := 0x05
def MPL115A2.REGISTER_B1_COEFF_MSB : Nat := 0x06
def MPL115A2.REGISTER_B1_COEFF_LSB : Nat := 0x07
def MPL115A2.REGISTER_B2_COEFF_MSB : Nat := 0x08
def MPL115A2.REGISTER_B2_COEFF_LSB : Nat := 0x09
def MPL115A2.REGISTER_C12_COEFF_MSB : Nat := 0x0A
def MPL115A2.REGISTER_C12_COEFF_LSB : Nat := 0x0B
def MPL115A2.REGISTER_START_CONVERSION : Nat := 0x12

/-- Calibration state of the MPL115A2 driver (fields `a0 b1 b2 c12`). -/
structure MPL115A2 where
  a0 : ℚ
  b1 : ℚ
  b2 : ℚ
  c12 : ℚ
deriving DecidableEq

/-- Mirror of `MPL115A2::read_calibration_coefficients`: two single-byte
register reads per coefficient, combined by `decodeS16` and divided by the
coefficient's fixed-point scale divisor. Any failed register read aborts
with the bus error. -/
def MPL115A2.read_calibration_coefficients (regs : Nat → Except Unit Nat) :
    Except Unit MPL115A2 := do
  let a0_msb ← regs REGISTER_A0_COEFF_MSB
  let a0_lsb ← regs REGISTER_A0_COEFF_LSB
  let b1_msb ← regs REGISTER_B1_COEFF_MSB
  let b1_lsb ← regs REGISTER_B1_COEFF_LSB
  let b2_msb ← regs REGISTER_B2_COEFF_MSB
  let b2_lsb ← regs REGISTER_B2_COEFF_LSB
  let c12_msb ← regs REGISTER_C12_COEFF_MSB
  let c12_lsb ← regs REGISTER_C12_COEFF_LSB
  pure { a0 := (decodeS16 a0_msb a0_lsb : ℚ) / 8
         b1 := (decodeS16 b1_msb b1_lsb : ℚ) / 8192
         b2 := (decodeS16 b2_msb b2_lsb : ℚ) / 16384
         c12 := (decodeS16 c12_msb c12_lsb : ℚ) / 4194304 }

/-- 10-bit ADC reconstruction `((msb as u16) << 2) | ((lsb as u16) >> 6)`
from `MPL115A2::read_pressure`. -/
def raw10 (msb lsb : Nat) : Nat :=
  ((msb % 256) <<< 2) ||| ((lsb % 256) >>> 6)

/-- Compensation polynomial from `MPL115A2::read_pressure`:
`pressure_comp = a0 + (b1 + c12 * temp_adc) * pressure_adc + b2 * temp_adc`. -/
def MPL115A2.pressure_comp (s : MPL115A2) (pressure_adc temp_adc : ℚ) : ℚ :=
  s.a0 + (s.b1 + s.c12 * temp_adc) * pressure_adc + s.b2 * temp_adc

/-- Final rescale from `MPL115A2::read_pressure`:
`(pressure_comp * 65.0 / 1023.0) + 50.0`. -/
def MPL115A2.pressure_hpa_of_comp (comp : ℚ) : ℚ :=
  comp * 65 / 1023 + 50

/-- Temperature linear fit from `MPL115A2::read_pressure`:
`(temp_adc - 498.0) / -5.35 + 25.0`. -/
def MPL115A2.temperature_celsius_of_adc (temp_adc : ℚ) : ℚ :=
  (temp_adc - 498) / (-5.35) + 25

/-- The value type returned by `MPL115A2::read_pressure`. The struct declares
the pressure field `pressure_hpa`; `main.rs` accesses the same single field
under the name `pressure_kpa` (see the C10 analysis: the stored scale is in
fact the sensor's 50..115 kPa output range). -/
structure PressureReading where
  pressure_hpa : ℚ
  temperature_celsius : ℚ
deriving DecidableEq

/-- Mirror of `MPL115A2::read_pressure`: start-conversion write (fallible),
settle delay (elided), four single-byte register reads, 10-bit
reconstruction, compensation polynomial, rescale, and temperature fit. -/
def MPL115A2.read_pressure (s : MPL115A2)
    (busW : Nat → Nat → Except Unit Unit) (regs : Nat → Except Unit Nat) :
    Except Unit PressureReading := do
  let _ ← busW REGISTER_START_CONVERSION 0x00
  let pressure_msb ← regs REGISTER_PRESSURE_MSB
  let pressure_lsb ← regs REGISTER_PRESSURE_LSB
  let temp_msb ← regs REGISTER_TEMP_MSB
  let temp_lsb ← regs REGISTER_TEMP_LSB
  let pressure_adc : ℚ := (raw10 pressure_msb pressure_lsb : ℚ)
  let temp_adc : ℚ := (raw10 temp_msb temp_lsb : ℚ)
  pure { pressure_hpa := pressure_hpa_of_comp (s.pressure_comp pressure_adc temp_adc)
         temperature_celsius := temperature_celsius_of_adc temp_adc }

/-- A register map answering the eight MPL115A2 coefficient registers
(0x04..0x0B) with the given bytes and failing on any other register. -/
def calib_regs (a0m a0l b1m b1l b2m b2l c12m c12l : Nat) : Nat → Except Unit Nat :=
  fun r =>
    if r = 0x04 then .ok a0m else if r = 0x05 then .ok a0l
    else if r = 0x06 then .ok b1m else if r = 0x07 then .ok b1l
    else if r = 0x08 then .ok b2m else if r = 0x09 then .ok b2l
    else if r = 0x0A then .ok c12m else if r = 0x0B then .ok c12l
    else .error ()

/-- A register map answering the four MPL115A2 ADC result registers
(0x00..0x03) with the given bytes and failing on any other register. -/
def press_regs (pm pl tm tl : Nat) : Nat → Except Unit Nat :=
  fun r =>
    if r = 0x00 then .ok pm else if r = 0x01 then .ok pl
    else if r = 0x02 then .ok tm else if r = 0x03 then .ok tl
    else .error ()

/-! ## MPU6050 motion sensor (src/i2c/MPU6050.rs) -/

def MPU6050.REGISTER_GYRO_CONFIG : Nat := 0x1B
def MPU6050.REGISTER_ACCEL_CONFIG : Nat := 0x1C
def MPU6050.REGISTER_ACCEL_XOUT_H : Nat := 0x3B
def MPU6050.REGISTER_ACCEL_YOUT_H : Nat := 0x3D
def MPU6050.REGISTER_ACCEL_ZOUT_H : Nat := 0x3F
def MPU6050.REGISTER_TEMP_OUT_H : Nat := 0x41
def MPU6050.REGISTER_GYRO_XOUT_H : Nat := 0x43
def MPU6050.REGISTER_GYRO_YOUT_H : Nat := 0x45
def MPU6050.REGISTER_GYRO_ZOUT_H : Nat := 0x47

inductive AccelSensitivity where
  | AFS_SEL_2G
  | AFS_SEL_4G
  | AFS_SEL_8G
  | AFS_SEL_16G
deriving DecidableEq

/-- Discriminant value of the `AccelSensitivity` enum in the source
(the byte written to the accelerometer configuration register). -/
def AccelSensitivity.code : AccelSensitivity → Nat
  | .AFS_SEL_2G => 0x00
  | .AFS_SEL_4G => 0x08
  | .AFS_SEL_8G => 0x10
  | .AFS_SEL_16G => 0x18

inductive GyroSensitivity where
  | FS_SEL_250DPS
  | FS_SEL_500DPS
  | FS_SEL_1000DPS
  | FS_SEL_2000DPS
deriving DecidableEq

/-- Discriminant value of the `GyroSensitivity` enum in the source. -/
def GyroSensitivity.code : GyroSensitivity → Nat
  | .FS_SEL_250DPS => 0x00
  | .FS_SEL_500DPS => 0x08
  | .FS_SEL_1000DPS => 0x10
  | .FS_SEL_2000DPS => 0x18

/-- The `ACCEL_SENSITIVITY_*` constant chosen by the match in
`MPU6050::set_accel_sensitivity` (LSB/g). -/
def accel_scale_of : AccelSensitivity → ℚ
  | .AFS_SEL_2G => 16384
  | .AFS_SEL_4G => 8192
  | .AFS_SEL_8G => 4096
  | .AFS_SEL_16G => 2048

/-- The `GYRO_SENSITIVITY_*` constant chosen by the match in
`MPU6050::set_gyro_sensitivity` (LSB per degree/second). -/
def gyro_scale_of : GyroSensitivity → ℚ
  | .FS_SEL_250DPS => 131
  | .FS_SEL_500DPS => 65.5
  | .FS_SEL_1000DPS => 32.8
  | .FS_SEL_2000DPS => 16.4

/-- In-memory driver state of `MPU6050` (the `i2c` handle is abstracted
away; reads and writes take the bus model as an argument). -/
structure MPU6050 where
  accel_sensitivity : AccelSensitivity
  gyro_sensitivity : GyroSensitivity
  accel_scale : ℚ
  gyro_scale : ℚ
deriving DecidableEq

/-- The in-memory state `MPU6050::new` starts from (±2g, ±250°/s). -/
def MPU6050.init : MPU6050 :=
  { accel_sensitivity := .AFS_SEL_2G
    gyro_sensitivity := .FS_SEL_250DPS
    accel_scale := 16384
    gyro_scale := 131 }

/-- Mirror of `MPU6050::set_accel_sensitivity`: the in-memory sensitivity and
scale factor are assigned first, then the configuration register write is
attempted; the write's result is returned alongside the (already updated)
state — on a failed write the state mutation is not rolled back. -/
def MPU6050.set_accel_sensitivity (s : MPU6050) (sensitivity : AccelSensitivity)
    (busW : Nat → Nat → Except Unit Unit) : Except Unit Unit × MPU6050 :=
  let s' := { s with accel_sensitivity := sensitivity
                     accel_scale := accel_scale_of sensitivity }
  (busW REGISTER_ACCEL_CONFIG sensitivity.code, s')

/-- Mirror of `MPU6050::set_gyro_sensitivity` (same shape as the
accelerometer version). -/
def MPU6050.set_gyro_sensitivity (s : MPU6050) (sensitivity : GyroSensitivity)
    (busW : Nat → Nat → Except Unit Unit) : Except Unit Unit × MPU6050 :=
  let s' := { s with gyro_sensitivity := sensitivity
                     gyro_scale := gyro_scale_of sensitivity }
  (busW REGISTER_GYRO_CONFIG sensitivity.code, s')

/-- Mirror of `MPU6050::read_register_16`: a two-byte big-endian read at
register `r`, combined as `((buffer[0] as i16) << 8) | (buffer[1] as i16)`. -/
def MPU6050.read_register_16 (regs : Nat → Except Unit Nat) (r : Nat) :
    Except Unit ℤ := do
  let b0 ← regs r
  let b1 ← regs (r + 1)
  pure (decodeS16 b0 b1)

structure AccelerometerReading where
  x : ℚ
  y : ℚ
  z : ℚ
deriving DecidableEq

structure GyroscopeReading where
  x : ℚ
  y : ℚ
  z : ℚ
deriving DecidableEq

structure MotionReading where
  accelerometer : AccelerometerReading
  gyroscope : GyroscopeReading
  temperature : ℚ
deriving DecidableEq

/-- Mirror of `MPU6050::read_accelerometer`: three signed 16-bit big-endian
reads, each divided by the active scale factor and multiplied by standard
gravity `9.80665`. -/
def MPU6050.read_accelerometer (s : MPU6050) (regs : Nat → Except Unit Nat) :
    Except Unit AccelerometerReading := do
  let x_raw ← read_register_16 regs REGISTER_ACCEL_XOUT_H
  let y_raw ← read_register_16 regs REGISTER_ACCEL_YOUT_H
  let z_raw ← read_register_16 regs REGISTER_ACCEL_ZOUT_H
  pure { x := (x_raw : ℚ) / s.accel_scale * 9.80665
         y := (y_raw : ℚ) / s.accel_scale * 9.80665
         z := (z_raw : ℚ) / s.accel_scale * 9.80665 }

/-- Mirror of `MPU6050::read_gyroscope`. -/
def MPU6050.read_gyroscope (s : MPU6050) (regs : Nat → Except Unit Nat) :
    Except Unit GyroscopeReading := do
  let x_raw ← read_register_16 regs REGISTER_GYRO_XOUT_H
  let y_raw ← read_register_16 regs REGISTER_GYRO_YOUT_H
  let z_raw ← read_register_16 regs REGISTER_GYRO_ZOUT_H
  pure { x := (x_raw : ℚ) / s.gyro_scale
         y := (y_raw : ℚ) / s.gyro_scale
         z := (z_raw : ℚ) / s.gyro_scale }

/-- Mirror of `MPU6050::read_temperature`: `(temp_raw as f32 / 340.0) + 36.53`. -/
def MPU6050.read_temperature (s : MPU6050) (regs : Nat → Except Unit Nat) :
    Except Unit ℚ := do
  let temp_raw ← read_register_16 regs REGISTER_TEMP_OUT_H
  pure ((temp_raw : ℚ) / 340 + 36.53)

/-- Mirror of `MPU6050::read_all`: composes the three reads; the first
failing sub-read aborts the whole operation. -/
def MPU6050.read_all (s : MPU6050) (regs : Nat → Except Unit Nat) :
    Except Unit MotionReading := do
  let accelerometer ← s.read_accelerometer regs
  let gyroscope ← s.read_gyroscope regs
  let temperature ← s.read_temperature regs
  pure { accelerometer := accelerometer
         gyroscope := gyroscope
         temperature := temperature }

/-- Accumulation loop of `MPU6050::calibrate`: `reads i` is the outcome of
the `i`-th `read_all` call (the bus state consumed by successive calls is
abstracted into the index). The first failing read aborts the loop with its
error, exactly as `self.read_all()?` does inside the `for` loop. -/
def MPU6050.calibrate_sums (reads : Nat → Except Unit MotionReading) :
    Nat → Except Unit (AccelerometerReading × GyroscopeReading)
  | 0 => .ok ({ x := 0, y := 0, z := 0 }, { x := 0, y := 0, z := 0 })
  | n + 1 => do
    let acc ← MPU6050.calibrate_sums reads n
    let reading ← reads n
    pure ({ x := acc.1.x + reading.accelerometer.x
            y := acc.1.y + reading.accelerometer.y
            z := acc.1.z + reading.accelerometer.z },
          { x := acc.2.x + reading.gyroscope.x
            y := acc.2.y + reading.gyroscope.y
            z := acc.2.z + reading.gyroscope.z })

/-- Mirror of `MPU6050::calibrate`: per-axis sums over `samples` reads,
divided by `samples`, with standard gravity subtracted from the
accelerometer Z mean. (For `samples = 0` the Rust code divides `0.0/0.0`,
producing NaN; the claims only concern `samples ≥ 1`.) -/
def MPU6050.calibrate (reads : Nat → Except Unit MotionReading) (samples : Nat) :
    Except Unit (AccelerometerReading × GyroscopeReading) := do
  let sums ← MPU6050.calibrate_sums reads samples
  pure ({ x := sums.1.x / (samples : ℚ)
          y := sums.1.y / (samples : ℚ)
          z := sums.1.z / (samples : ℚ) - 9.80665 },
        { x := sums.2.x / (samples : ℚ)
          y := sums.2.y / (samples : ℚ)
          z := sums.2.z / (samples : ℚ) })

/-- A register map answering the six accelerometer output registers
(0x3B..0x40) with the given bytes and failing on any other register. -/
def accel_regs (xh xl yh yl zh zl : Nat) : Nat → Except Unit Nat :=
  fun r =>
    if r = 0x3B then .ok xh else if r = 0x3C then .ok xl
    else if r = 0x3D then .ok yh else if r = 0x3E then .ok yl
    else if r = 0x3F then .ok zh else if r = 0x40 then .ok zl
    else .error ()

/-! ## Telemetry packet construction and the orchestrator (src/main.rs) -/

/-- One value per `rng.gen_range` draw a packet constructor can make
(`TelemetryPacket::new` uses all of them; the sensor-data constructors use
only the humidity/latitude/longitude/accel/gyro draws). -/
structure SimDraws where
  temperature : ℝ
  pressure : ℝ
  humidity : ℝ
  altitude : ℝ
  latitude : ℝ
  longitude : ℝ
  accel_x : ℝ
  accel_y : ℝ
  accel_z : ℝ
  gyro_x : ℝ
  gyro_y : ℝ
  gyro_z : ℝ
  status : Nat

/-- The bounds of the `gen_range(lo..=hi)` calls in `main.rs`: every draw a
real run can produce satisfies this predicate. -/
def SimDraws.InRange (d : SimDraws) : Prop :=
  -40 ≤ d.temperature ∧ d.temperature ≤ 60 ∧
  800 ≤ d.pressure ∧ d.pressure ≤ 1200 ∧
  0 ≤ d.humidity ∧ d.humidity ≤ 100 ∧
  0 ≤ d.altitude ∧ d.altitude ≤ 50000 ∧
  -90 ≤ d.latitude ∧ d.latitude ≤ 90 ∧
  -180 ≤ d.longitude ∧ d.longitude ≤ 180 ∧
  -20 ≤ d.accel_x ∧ d.accel_x ≤ 20 ∧
  -20 ≤ d.accel_y ∧ d.accel_y ≤ 20 ∧
  -20 ≤ d.accel_z ∧ d.accel_z ≤ 20 ∧
  -2000 ≤ d.gyro_x ∧ d.gyro_x ≤ 2000 ∧
  -2000 ≤ d.gyro_y ∧ d.gyro_y ≤ 2000 ∧
  -2000 ≤ d.gyro_z ∧ d.gyro_z ≤ 2000 ∧
  d.status ≤ 255

/-- Field-for-field value model of the `TelemetryPacket` struct in `main.rs`
(`sync`/`timestamp` are `u64`, `status` is `u8`, the rest are `f32`). -/
structure TelemetryPacket where
  sync : Nat
  timestamp : Nat
  temperature : ℝ
  pressure : ℝ
  humidity : ℝ
  altitude : ℝ
  latitude : ℝ
  longitude : ℝ
  accel_x : ℝ
  accel_y : ℝ
  accel_z : ℝ
  gyro_x : ℝ
  gyro_y : ℝ
  gyro_z : ℝ
  status : Nat

def SYNC_MARKER : Nat := 0xFFFFFFFFFFFFFFFF

/-- Mirror of `TelemetryPacket::new`: every payload field is a simulated
draw, including the status byte (`rng.gen_range(0..=255)`). -/
def TelemetryPacket.new (now : Nat) (d : SimDraws) : TelemetryPacket :=
  { sync := SYNC_MARKER
    timestamp := now
    temperature := d.temperature
    pressure := d.pressure
    humidity := d.humidity
    altitude := d.altitude
    latitude := d.latitude
    longitude := d.longitude
    accel_x := d.accel_x
    accel_y := d.accel_y
    accel_z := d.accel_z
    gyro_x := d.gyro_x
    gyro_y := d.gyro_y
    gyro_z := d.gyro_z
    status := d.status }

/-- Barometric altitude computation shared by both sensor-data constructors:
`if pressure_hpa > 0.0 { 44330.0 * (1.0 - (pressure_hpa / 1013.25).powf(0.1903)) } else { 0.0 }`. -/
noncomputable def altitude_from_hpa (pressure_hpa : ℝ) : ℝ :=
  if 0 < pressure_hpa then
    44330 * (1 - (pressure_hpa / 1013.25) ^ (0.1903 : ℝ))
  else 0

/-- Mirror of `TelemetryPacket::new_with_sensor_data`: real pressure and
temperature, altitude derived from `pressure_kpa * 10.0`, all other payload
fields simulated, status `0x01`. -/
noncomputable def TelemetryPacket.new_with_sensor_data (now : Nat)
    (pressure_kpa temperature_celsius : ℝ) (d : SimDraws) : TelemetryPacket :=
  let pressure_hpa := pressure_kpa * 10
  let altitude := altitude_from_hpa pressure_hpa
  { sync := SYNC_MARKER
    timestamp := now
    temperature := temperature_celsius
    pressure := pressure_kpa
    humidity := d.humidity
    altitude := altitude
    latitude := d.latitude
    longitude := d.longitude
    accel_x := d.accel_x
    accel_y := d.accel_y
    accel_z := d.accel_z
    gyro_x := d.gyro_x
    gyro_y := d.gyro_y
    gyro_z := d.gyro_z
    status := 0x01 }

/-- Mirror of `TelemetryPacket::new_with_full_sensor_data`: real pressure,
temperature and motion, status `0x03`. -/
noncomputable def TelemetryPacket.new_with_full_sensor_data (now : Nat)
    (pressure_kpa temperature_celsius : ℝ) (motion : MotionReading)
    (d : SimDraws) : TelemetryPacket :=
  let pressure_hpa := pressure_kpa * 10
  let altitude := altitude_from_hpa pressure_hpa
  { sync := SYNC_MARKER
    timestamp := now
    temperature := temperature_celsius
    pressure := pressure_kpa
    humidity := d.humidity
    altitude := altitude
    latitude := d.latitude
    longitude := d.longitude
    accel_x := (motion.accelerometer.x : ℝ)
    accel_y := (motion.accelerometer.y : ℝ)
    accel_z := (motion.accelerometer.z : ℝ)
    gyro_x := (motion.gyroscope.x : ℝ)
    gyro_y := (motion.gyroscope.y : ℝ)
    gyro_z := (motion.gyroscope.z : ℝ)
    status := 0x03 }

/-- The packet-variant selection of the orchestrator loop in `main`:
`match (pressure_reading, motion_reading)` with arms `(Some, Some)`,
`(Some, None)`, and a catch-all `_` that falls back to the fully simulated
constructor. (`main.rs` reads the pressure field as `pressure_kpa`; the
`PressureReading` struct declares it `pressure_hpa` — same field.) -/
noncomputable def selectPacket (now : Nat) (pressure_reading : Option PressureReading)
    (motion_reading : Option MotionReading) (d : SimDraws) : TelemetryPacket :=
  match pressure_reading, motion_reading with
  | some pressure, some motion =>
    TelemetryPacket.new_with_full_sensor_data now
      (pressure.pressure_hpa : ℝ) (pressure.temperature_celsius : ℝ) motion d
  | some pressure, none =>
    TelemetryPacket.new_with_sensor_data now
      (pressure.pressure_hpa : ℝ) (pressure.temperature_celsius : ℝ) d
  | _, _ => TelemetryPacket.new now d

/-! ## Serialization layout (`#[repr(C, packed)]` + `as_bytes`) -/

/-- The `TelemetryPacket` struct at the byte-layout level: each `f32` field
is its 32-bit IEEE-754 bit pattern (an arbitrary `Nat` taken mod 2^32 when
serialized — NaN and infinity patterns included), `sync`/`timestamp` are
64-bit, `status` 8-bit. -/
structure TelemetryPacketBits where
  sync : Nat
  timestamp : Nat
  temperature : Nat
  pressure : Nat
  humidity : Nat
  altitude : Nat
  latitude : Nat
  longitude : Nat
  accel_x : Nat
  accel_y : Nat
  accel_z : Nat
  gyro_x : Nat
  gyro_y : Nat
  gyro_z : Nat
  status : Nat

/-- The `w` native-order (little-endian on the target) bytes of a machine
word. -/
def bytesLE (w n : Nat) : List Nat :=
  (List.range w).map fun i => n / 256 ^ i % 256

/-- Mirror of `TelemetryPacket::as_bytes` on the `#[repr(C, packed)]` layout:
the fields' bytes in declaration order with no padding. -/
def TelemetryPacketBits.as_bytes (p : TelemetryPacketBits) : List Nat :=
  bytesLE 8 p.sync ++ bytesLE 8 p.timestamp ++
  bytesLE 4 p.temperature ++ bytesLE 4 p.pressure ++ bytesLE 4 p.humidity ++
  bytesLE 4 p.altitude ++ bytesLE 4 p.latitude ++ bytesLE 4 p.longitude ++
  bytesLE 4 p.accel_x ++ bytesLE 4 p.accel_y ++ bytesLE 4 p.accel_z ++
  bytesLE 4 p.gyro_x ++ bytesLE 4 p.gyro_y ++ bytesLE 4 p.gyro_z ++
  bytesLE 1 p.status

/-! ## Concrete inputs used by counterexamples and witnesses -/

/-- An in-range assignment of the simulated draws with status draw `3`. -/
def exampleDraws : SimDraws :=
  { temperature := 0, pressure := 1000, humidity := 50, altitude := 100
    latitude := 0, longitude := 0
    accel_x := 7, accel_y := 0, accel_z := 0
    gyro_x := 0, gyro_y := 0, gyro_z := 0
    status := 3 }

/-- A concrete successful motion reading. -/
def exampleMotion : MotionReading :=
  { accelerometer := { x := 1, y := 2, z := 3 }
    gyroscope := { x := 4, y := 5, z := 6 }
    temperature := 25 }

/-- The motion reading of a stationary, level device: (0, 0, g) acceleration
and zero angular rate. -/
def exampleStill : MotionReading :=
  { accelerometer := { x := 0, y := 0, z := 9.80665 }
    gyroscope := { x := 0, y := 0, z := 0 }
    temperature := 25 }

/-! ## Helper lemmas -/

/-- The concrete draw assignment is within every `gen_range` bound. -/
lemma exampleDraws_inRange : exampleDraws.InRange := by
  norm_num [SimDraws.InRange, exampleDraws]

/-! ## Claims -/

/-- C3: For every packet variant, serializing a constructed TelemetryPacket
produces exactly the declared fixed byte length (8-byte sync + 8-byte
timestamp + twelve 4-byte floats + 1-byte status = 65 bytes) with no
padding, regardless of field values — the fields of `TelemetryPacketBits`
are arbitrary bit patterns, so extreme floats, NaN and infinity are all
instances of this statement, and the byte string is exactly the
concatenation of the fields' bytes with nothing between them. -/
theorem C3_packet_size (p : TelemetryPacketBits) :
    p.as_bytes.length = 65 ∧
    p.as_bytes.length = 8 + 8 + 12 * 4 + 1 := by
  constructor <;>
    simp [TelemetryPacketBits.as_bytes, bytesLE]

/-- C5: each calibration coefficient is decoded from its register pair as
`(msb << 8) | lsb` reinterpreted as a signed 16-bit integer (shown by the
bounds and the congruence mod 2^16) and divided by its scale divisor
(8, 8192, 16384, 4194304); the decoding is total and deterministic over all
byte values (it is a Lean function, with no partiality or overflow escape),
and multiplying each scaled coefficient back by its divisor recovers the
original integer exactly. -/
theorem C5_coefficient_decoding (a0m a0l b1m b1l b2m b2l c12m c12l : Nat) :
    MPL115A2.read_calibration_coefficients (calib_regs a0m a0l b1m b1l b2m b2l c12m c12l) =
      .ok { a0 := (decodeS16 a0m a0l : ℚ) / 8
            b1 := (decodeS16 b1m b1l : ℚ) / 8192
            b2 := (decodeS16 b2m b2l : ℚ) / 16384
            c12 := (decodeS16 c12m c12l : ℚ) / 4194304 }
    ∧ (∀ msb lsb : Nat,
        -32768 ≤ decodeS16 msb lsb ∧ decodeS16 msb lsb ≤ 32767 ∧
        decodeS16 msb lsb % 65536 = ((msb % 256) * 256 + lsb % 256 : Nat))
    ∧ (∀ msb lsb : Nat,
        (decodeS16 msb lsb : ℚ) / 8 * 8 = (decodeS16 msb lsb : ℚ) ∧
        (decodeS16 msb lsb : ℚ) / 8192 * 8192 = (decodeS16 msb lsb : ℚ) ∧
        (decodeS16 msb lsb : ℚ) / 16384 * 16384 = (decodeS16 msb lsb : ℚ) ∧
        (decodeS16 msb lsb : ℚ) / 4194304 * 4194304 = (decodeS16 msb lsb : ℚ)) := by
  refine ⟨rfl, ?_, ?_⟩
  · intro msb lsb
    unfold decodeS16 toI16
    have hb : (msb % 256) * 256 + lsb % 256 < 65536 := by omega
    split <;>
      refine ⟨by omega, by omega, ?_⟩ <;>
      omega
  · intro msb lsb
    refine ⟨?_, ?_, ?_, ?_⟩ <;>
      exact div_mul_cancel₀ _ (by norm_num)

/-- C9: `read_accelerometer` decodes each of the three axes from a signed
16-bit big-endian register pair, divides by the active accelerometer scale
factor and multiplies by standard gravity 9.80665; at the ±2g setting
(scale 16384 LSB/g, the state `MPU6050::new` starts from) a raw register
value of 16384 (bytes 0x40, 0x00) decodes to exactly 9.80665. -/
theorem C9_accelerometer_decode :
    (∀ (s : MPU6050) (xh xl yh yl zh zl : Nat),
      s.read_accelerometer (accel_regs xh xl yh yl zh zl) =
        .ok { x := (decodeS16 xh xl : ℚ) / s.accel_scale * 9.80665
              y := (decodeS16 yh yl : ℚ) / s.accel_scale * 9.80665
              z := (decodeS16 zh zl : ℚ) / s.accel_scale * 9.80665 })
    ∧ decodeS16 0x40 0x00 = 16384
    ∧ MPU6050.init.accel_scale = 16384
    ∧ MPU6050.init.read_accelerometer (accel_regs 0x40 0x00 0x40 0x00 0x40 0x00) =
        .ok { x := 9.80665, y := 9.80665, z := 9.80665 } := by
  have hgen : ∀ (s : MPU6050) (xh xl yh yl zh zl : Nat),
      s.read_accelerometer (accel_regs xh xl yh yl zh zl) =
        .ok { x := (decodeS16 xh xl : ℚ) / s.accel_scale * 9.80665
              y := (decodeS16 yh yl : ℚ) / s.accel_scale * 9.80665
              z := (decodeS16 zh zl : ℚ) / s.accel_scale * 9.80665 } :=
    fun _ _ _ _ _ _ _ => rfl
  refine ⟨hgen, by decide, rfl, ?_⟩
  rw [hgen]
  norm_num [MPU6050.init, decodeS16, toI16, Except.ok.injEq,
    AccelerometerReading.mk.injEq]

/-- C4 counterexample: starting from the initial state (±2g, scale 16384),
calling `set_accel_sensitivity` with ±4g over a bus whose register write
fails returns an error, yet the in-memory scale factor has changed from
16384 to 8192 — the claim that the in-memory sensitivity and scale are left
unchanged on a failed write is false. -/
theorem C4_counterexample :
    (MPU6050.init.set_accel_sensitivity .AFS_SEL_4G (fun _ _ => .error ())).1 = .error ()
    ∧ (MPU6050.init.set_accel_sensitivity .AFS_SEL_4G (fun _ _ => .error ())).2.accel_scale = 8192
    ∧ MPU6050.init.accel_scale = 16384
    ∧ (MPU6050.init.set_accel_sensitivity .AFS_SEL_4G (fun _ _ => .error ())).2.accel_scale
        ≠ MPU6050.init.accel_scale := by
  refine ⟨rfl, by decide, rfl, by decide⟩

/-- C4 amended: `set_accel_sensitivity` and `set_gyro_sensitivity` update
the in-memory sensitivity and scale factor *before* attempting the
configuration-register write and return the write's outcome; on a failed
write the operation returns the error but the in-memory values have already
been updated to the new setting (they are not rolled back), so subsequent
reads use the new scale factor. The sibling axis' setting is untouched. -/
theorem C4_set_sensitivity_updates_before_write (s : MPU6050)
    (sa : AccelSensitivity) (sg : GyroSensitivity)
    (busW : Nat → Nat → Except Unit Unit) :
    ((s.set_accel_sensitivity sa busW).1 = busW MPU6050.REGISTER_ACCEL_CONFIG sa.code
      ∧ (s.set_accel_sensitivity sa busW).2.accel_sensitivity = sa
      ∧ (s.set_accel_sensitivity sa busW).2.accel_scale = accel_scale_of sa
      ∧ (s.set_accel_sensitivity sa busW).2.gyro_sensitivity = s.gyro_sensitivity
      ∧ (s.set_accel_sensitivity sa busW).2.gyro_scale = s.gyro_scale)
    ∧ ((s.set_gyro_sensitivity sg busW).1 = busW MPU6050.REGISTER_GYRO_CONFIG sg.code
      ∧ (s.set_gyro_sensitivity sg busW).2.gyro_sensitivity = sg
      ∧ (s.set_gyro_sensitivity sg busW).2.gyro_scale = gyro_scale_of sg
      ∧ (s.set_gyro_sensitivity sg busW).2.accel_sensitivity = s.accel_sensitivity
      ∧ (s.set_gyro_sensitivity sg busW).2.accel_scale = s.accel_scale) :=
  ⟨⟨rfl, rfl, rfl, rfl, rfl⟩, ⟨rfl, rfl, rfl, rfl, rfl⟩⟩

/-- C1 counterexample: with both reads absent (all fields simulated) and the
in-range status draw 3, the constructed packet's status byte is 3, not 0x00
— `TelemetryPacket::new` fills the status byte from `gen_range(0..=255)`,
so the claimed encoding fails for the all-simulated combination. -/
theorem C1_counterexample :
    exampleDraws.InRange
    ∧ (selectPacket 0 none none exampleDraws).status = 3
    ∧ (selectPacket 0 none none exampleDraws).status ≠ 0x00 :=
  ⟨exampleDraws_inRange, rfl, by decide⟩

/-- C1 amended: the status byte is 0x03 when both reads succeeded and 0x01
when only the pressure read succeeded, but whenever the pressure read is
absent — both for the neither combination and for the motion-only
combination — the fully simulated constructor is used and the status byte
is the raw random draw (any value in 0..=255), so 0x00 and 0x02 are not
produced systematically and the status byte does not unambiguously encode
which field groups are authoritative. -/
theorem C1_status_byte (now : Nat) (p : PressureReading) (m : MotionReading)
    (d : SimDraws) :
    (selectPacket now (some p) (some m) d).status = 0x03
    ∧ (selectPacket now (some p) none d).status = 0x01
    ∧ (∀ mo : Option MotionReading, (selectPacket now none mo d).status = d.status) := by
  refine ⟨rfl, rfl, fun mo => ?_⟩
  cases mo <;> rfl

/-- C2 counterexample: with the pressure read failed and the motion read
succeeded (reading acceleration x = 1), the orchestrator's catch-all arm
builds the fully simulated packet, whose acceleration x field is the
simulated draw 7, not the real reading — the claim that a successful motion
read fills the motion fields even when the pressure read failed is false. -/
theorem C2_counterexample :
    exampleDraws.InRange
    ∧ (selectPacket 0 none (some exampleMotion) exampleDraws).accel_x = 7
    ∧ (exampleMotion.accelerometer.x : ℝ) = 1
    ∧ (selectPacket 0 none (some exampleMotion) exampleDraws).accel_x
        ≠ (exampleMotion.accelerometer.x : ℝ) := by
  refine ⟨exampleDraws_inRange, ?_, ?_, ?_⟩
  · show exampleDraws.accel_x = 7
    norm_num [exampleDraws]
  · show ((1 : ℚ) : ℝ) = 1
    norm_num
  · show exampleDraws.accel_x ≠ ((1 : ℚ) : ℝ)
    norm_num [exampleDraws]

/-- C2 amended: the orchestrator selects the full-sensor variant only when
*both* reads succeeded (and then the packet's three acceleration and three
angular-rate fields do come from the real motion reading), the
pressure-only variant when only the pressure read succeeded, and otherwise
— including when the motion read succeeded but the pressure read failed —
falls back to the fully simulated constructor, discarding the motion
reading; the unavailable field groups are then replaced by simulated draws. -/
theorem C2_variant_selection (now : Nat) (p : PressureReading)
    (m : MotionReading) (d : SimDraws) :
    selectPacket now (some p) (some m) d =
      TelemetryPacket.new_with_full_sensor_data now
        (p.pressure_hpa : ℝ) (p.temperature_celsius : ℝ) m d
    ∧ (selectPacket now (some p) (some m) d).accel_x = (m.accelerometer.x : ℝ)
    ∧ (selectPacket now (some p) (some m) d).accel_y = (m.accelerometer.y : ℝ)
    ∧ (selectPacket now (some p) (some m) d).accel_z = (m.accelerometer.z : ℝ)
    ∧ (selectPacket now (some p) (some m) d).gyro_x = (m.gyroscope.x : ℝ)
    ∧ (selectPacket now (some p) (some m) d).gyro_y = (m.gyroscope.y : ℝ)
    ∧ (selectPacket now (some p) (some m) d).gyro_z = (m.gyroscope.z : ℝ)
    ∧ selectPacket now (some p) none d =
      TelemetryPacket.new_with_sensor_data now
        (p.pressure_hpa : ℝ) (p.temperature_celsius : ℝ) d
    ∧ (∀ mo : Option MotionReading,
        selectPacket now none mo d = TelemetryPacket.new now d)
    ∧ (selectPacket now none (some m) d).accel_x = d.accel_x := by
  refine ⟨rfl, rfl, rfl, rfl, rfl, rfl, rfl, rfl, fun mo => ?_, rfl⟩
  cases mo <;> rfl

/-- C6: `read_pressure` reconstructs the 10-bit raw values as
`(msb << 2) | (lsb >> 6)` (so bytes 0x80, 0x00 give 512) and computes
`pressure_comp = A0 + (B1 + C12*T_adc)*P_adc + B2*T_adc`, final pressure
`pressure_comp * 65/1023 + 50` and temperature `(T_adc - 498) / (-5.35) + 25`;
with A0=1000, B1=0.01, B2=0.001, C12=0.0000001 and P_adc = T_adc = 512 the
compensated pressure equals the hand-computed 1005.6582144 exactly (hence
within 1e-4 relative error) and the final value is within 1e-4 relative
error of the hand-computed 113.8981. -/
theorem C6_pressure_compensation :
    (∀ (s : MPL115A2) (pm pl tm tl : Nat),
      s.read_pressure (fun _ _ => .ok ()) (press_regs pm pl tm tl) =
        .ok { pressure_hpa := MPL115A2.pressure_hpa_of_comp
                (s.pressure_comp (raw10 pm pl : ℚ) (raw10 tm tl : ℚ))
              temperature_celsius := MPL115A2.temperature_celsius_of_adc (raw10 tm tl : ℚ) })
    ∧ raw10 0x80 0x00 = 512
    ∧ MPL115A2.pressure_comp ⟨1000, 1/100, 1/1000, 1/10000000⟩ 512 512 = 10056582144 / 10000000
    ∧ |MPL115A2.pressure_comp ⟨1000, 1/100, 1/1000, 1/10000000⟩ 512 512 - 10056582144 / 10000000|
        ≤ 1 / 10000 * (10056582144 / 10000000)
    ∧ |MPL115A2.pressure_hpa_of_comp
          (MPL115A2.pressure_comp ⟨1000, 1/100, 1/1000, 1/10000000⟩ 512 512)
        - 1138981 / 10000| ≤ 1 / 10000 * (1138981 / 10000)
    ∧ MPL115A2.temperature_celsius_of_adc 512 = 2395 / 107 := by
  refine ⟨fun s pm pl tm tl => rfl, by decide, ?_, ?_, ?_, ?_⟩ <;>
    norm_num [MPL115A2.pressure_comp, MPL115A2.pressure_hpa_of_comp,
      MPL115A2.temperature_celsius_of_adc, abs_le]

/-- C7: whenever a real pressure reading is present (either sensor-data
constructor), the altitude field is `altitude_from_hpa` of ten times the
stored pressure value, which for positive pressure is
`44330 * (1 - (P_hpa/1013.25)^0.1903)`; at `P_hpa = 1013.25` the altitude is
0, and for any non-positive `P_hpa` the guard clause yields exactly 0 (the
power function is never applied there); with no real pressure the altitude
field is itself the simulated draw. -/
theorem C7_altitude_formula :
    (∀ (now : Nat) (kpa t : ℝ) (d : SimDraws),
      (TelemetryPacket.new_with_sensor_data now kpa t d).altitude
        = altitude_from_hpa (kpa * 10))
    ∧ (∀ (now : Nat) (kpa t : ℝ) (m : MotionReading) (d : SimDraws),
      (TelemetryPacket.new_with_full_sensor_data now kpa t m d).altitude
        = altitude_from_hpa (kpa * 10))
    ∧ (∀ hpa : ℝ, 0 < hpa →
      altitude_from_hpa hpa = 44330 * (1 - (hpa / 1013.25) ^ (0.1903 : ℝ)))
    ∧ altitude_from_hpa 1013.25 = 0
    ∧ (∀ hpa : ℝ, hpa ≤ 0 → altitude_from_hpa hpa = 0)
    ∧ (∀ (now : Nat) (d : SimDraws), (TelemetryPacket.new now d).altitude = d.altitude) := by
  refine ⟨fun now kpa t d => rfl, fun now kpa t m d => rfl, ?_, ?_, ?_,
    fun now d => rfl⟩
  · intro hpa h
    rw [altitude_from_hpa, if_pos h]
  · rw [altitude_from_hpa, if_pos (by norm_num)]
    have h1 : (1013.25 : ℝ) / 1013.25 = 1 := by norm_num
    rw [h1, Real.one_rpow]
    ring
  · intro hpa h
    rw [altitude_from_hpa, if_neg (not_lt.mpr h)]

/-- C7 witness: the guarded branch and the formula branch, each applied at a
concrete pressure. -/
theorem C7_witness :
    altitude_from_hpa (-3) = 0
    ∧ altitude_from_hpa 2026.5 = 44330 * (1 - ((2026.5 : ℝ) / 1013.25) ^ (0.1903 : ℝ)) :=
  ⟨C7_altitude_formula.2.2.2.2.1 (-3) (by norm_num),
   C7_altitude_formula.2.2.1 2026.5 (by norm_num)⟩

/-- Bind of a successful `Except` computation. -/
lemma eok_bind {α β : Type} (a : α) (f : α → Except Unit β) :
    (Except.ok a >>= f) = f a := rfl

/-- Sum accumulated by the calibration loop over `n` identical successful
readings. -/
lemma calibrate_sums_const (reads : Nat → Except Unit MotionReading)
    (c : MotionReading) :
    ∀ n : Nat, (∀ i, i < n → reads i = .ok c) →
      MPU6050.calibrate_sums reads n = .ok
        ({ x := n * c.accelerometer.x
           y := n * c.accelerometer.y
           z := n * c.accelerometer.z },
         { x := n * c.gyroscope.x
           y := n * c.gyroscope.y
           z := n * c.gyroscope.z }) := by
  intro n
  induction n with
  | zero => intro _; simp [MPU6050.calibrate_sums]
  | succ n ih =>
    intro h
    rw [MPU6050.calibrate_sums, ih (fun i hi => h i (Nat.lt_succ_of_lt hi)),
      eok_bind, h n (Nat.lt_succ_self n), eok_bind]
    simp only [pure, Except.pure, Except.ok.injEq, Prod.mk.injEq,
      AccelerometerReading.mk.injEq, GyroscopeReading.mk.injEq, Nat.cast_succ]
    refine ⟨⟨?_, ?_, ?_⟩, ?_, ?_, ?_⟩ <;> ring

/-- If the first `k` reads succeed, the calibration loop reaches index `k`
with a well-defined accumulator. -/
lemma calibrate_sums_ok (reads : Nat → Except Unit MotionReading) :
    ∀ k : Nat, (∀ j, j < k → ∃ r, reads j = .ok r) →
      ∃ s, MPU6050.calibrate_sums reads k = .ok s := by
  intro k
  induction k with
  | zero => intro _; exact ⟨_, rfl⟩
  | succ k ih =>
    intro h
    obtain ⟨s, hs⟩ := ih (fun j hj => h j (Nat.lt_succ_of_lt hj))
    obtain ⟨r, hr⟩ := h k (Nat.lt_succ_self k)
    refine ⟨({ x := s.1.x + r.accelerometer.x
               y := s.1.y + r.accelerometer.y
               z := s.1.z + r.accelerometer.z },
             { x := s.2.x + r.gyroscope.x
               y := s.2.y + r.gyroscope.y
               z := s.2.z + r.gyroscope.z }), ?_⟩
    rw [MPU6050.calibrate_sums, hs, eok_bind, hr, eok_bind]
    rfl

/-- A read failure at index `k` (the first failure) aborts every longer
calibration loop with that error. -/
lemma calibrate_sums_error (reads : Nat → Except Unit MotionReading)
    (k : Nat) (e : Unit)
    (hok : ∀ j, j < k → ∃ r, reads j = .ok r) (he : reads k = .error e) :
    ∀ n, k < n → MPU6050.calibrate_sums reads n = .error e := by
  have base : MPU6050.calibrate_sums reads (k + 1) = .error e := by
    obtain ⟨s, hs⟩ := calibrate_sums_ok reads k hok
    rw [MPU6050.calibrate_sums, hs, eok_bind, he]
    rfl
  intro n hn
  induction n with
  | zero => omega
  | succ n ih =>
    rcases Nat.lt_succ_iff_lt_or_eq.mp hn with h | h
    · rw [MPU6050.calibrate_sums, ih h]
      rfl
    · subst h
      exact base

/-- C8: `calibrate(sample_count)` returns the arithmetic mean over
`sample_count` full reads as the per-axis offset estimate, with standard
gravity 9.80665 subtracted from the acceleration Z axis: on `n ≥ 1`
identical readings of (0, 0, 9.80665) acceleration and (0, 0, 0) angular
rate it returns acceleration offsets (0, 0, 0) and angular-rate offsets
(0, 0, 0); and if the read at index `k` fails after `k` successes, the
whole calibration aborts with that error — no average over fewer readings
is produced. -/
theorem C8_calibrate :
    (∀ (n : Nat) (t : ℚ) (reads : Nat → Except Unit MotionReading),
      0 < n →
      (∀ i, i < n → reads i = .ok
        { accelerometer := { x := 0, y := 0, z := 9.80665 }
          gyroscope := { x := 0, y := 0, z := 0 }
          temperature := t }) →
      MPU6050.calibrate reads n =
        .ok ({ x := 0, y := 0, z := 0 }, { x := 0, y := 0, z := 0 }))
    ∧ (∀ (n k : Nat) (reads : Nat → Except Unit MotionReading) (e : Unit),
      k < n → (∀ j, j < k → ∃ r, reads j = .ok r) → reads k = .error e →
      MPU6050.calibrate reads n = .error e) := by
  constructor
  · intro n t reads hn hr
    have hcast : (n : ℚ) ≠ 0 := Nat.cast_ne_zero.mpr hn.ne'
    rw [MPU6050.calibrate, calibrate_sums_const reads _ n hr, eok_bind]
    simp only [pure, Except.pure, Except.ok.injEq, Prod.mk.injEq,
      AccelerometerReading.mk.injEq, GyroscopeReading.mk.injEq]
    refine ⟨⟨?_, ?_, ?_⟩, ?_, ?_, ?_⟩ <;> field_simp
  · intro n k reads e hk hok he
    rw [MPU6050.calibrate, calibrate_sums_error reads k e hok he n hk]
    rfl

/-- C8 witness: two samples of the stationary reading give zero offsets, and
an immediately failing read aborts a two-sample calibration. -/
theorem C8_witness :
    MPU6050.calibrate (fun _ => .ok exampleStill) 2 =
      .ok ({ x := 0, y := 0, z := 0 }, { x := 0, y := 0, z := 0 })
    ∧ MPU6050.calibrate (fun _ => .error ()) 2 = .error () :=
  ⟨C8_calibrate.1 2 25 _ (by norm_num) (fun i _ => rfl),
   C8_calibrate.2 2 0 _ () (by norm_num) (fun j hj => absurd hj (Nat.not_lt_zero j)) rfl⟩

/-- C10: the sensor-data constructors store the value handed to them — the
barometer's compensated output `pressure_comp * 65/1023 + 50`, which for a
compensated value in the design range 0..1023 lies in 50..115 (the sensor's
kPa output span) — while the altitude formula inside those constructors uses
ten times that stored value as hPa; the all-simulated constructor draws its
pressure from 800..1200, so a real pressure value is never in the simulated
pressure range. -/
theorem C10_pressure_units :
    (∀ comp : ℚ, 0 ≤ comp → comp ≤ 1023 →
      50 ≤ MPL115A2.pressure_hpa_of_comp comp
      ∧ MPL115A2.pressure_hpa_of_comp comp ≤ 115
      ∧ ((MPL115A2.pressure_hpa_of_comp comp : ℚ) : ℝ) < 800)
    ∧ (∀ (now : Nat) (v t : ℚ) (d : SimDraws),
      (TelemetryPacket.new_with_sensor_data now (v : ℝ) (t : ℝ) d).pressure = (v : ℝ)
      ∧ (TelemetryPacket.new_with_sensor_data now (v : ℝ) (t : ℝ) d).altitude
          = altitude_from_hpa ((v : ℝ) * 10))
    ∧ (∀ (now : Nat) (v t : ℚ) (m : MotionReading) (d : SimDraws),
      (TelemetryPacket.new_with_full_sensor_data now (v : ℝ) (t : ℝ) m d).pressure = (v : ℝ)
      ∧ (TelemetryPacket.new_with_full_sensor_data now (v : ℝ) (t : ℝ) m d).altitude
          = altitude_from_hpa ((v : ℝ) * 10))
    ∧ (∀ (now : Nat) (d : SimDraws), d.InRange →
      800 ≤ (TelemetryPacket.new now d).pressure
      ∧ (TelemetryPacket.new now d).pressure ≤ 1200)
    ∧ (∀ (comp : ℚ) (now : Nat) (d : SimDraws), 0 ≤ comp → comp ≤ 1023 → d.InRange →
      ((MPL115A2.pressure_hpa_of_comp comp : ℚ) : ℝ) ≠ (TelemetryPacket.new now d).pressure)
    ∧ (∀ (now : Nat) (p : PressureReading) (m : MotionReading) (d : SimDraws),
      (selectPacket now (some p) (some m) d).pressure = (p.pressure_hpa : ℝ)
      ∧ (selectPacket now (some p) none d).pressure = (p.pressure_hpa : ℝ)) := by
  have hbounds : ∀ comp : ℚ, 0 ≤ comp → comp ≤ 1023 →
      50 ≤ MPL115A2.pressure_hpa_of_comp comp
      ∧ MPL115A2.pressure_hpa_of_comp comp ≤ 115 := by
    intro comp h0 h1
    unfold MPL115A2.pressure_hpa_of_comp
    constructor <;> nlinarith
  have hsim : ∀ (now : Nat) (d : SimDraws), d.InRange →
      800 ≤ (TelemetryPacket.new now d).pressure
      ∧ (TelemetryPacket.new now d).pressure ≤ 1200 := by
    intro now d hd
    obtain ⟨_, _, h3, h4, _⟩ := hd
    exact ⟨h3, h4⟩
  refine ⟨?_, fun now v t d => ⟨rfl, rfl⟩, fun now v t m d => ⟨rfl, rfl⟩, hsim,
    ?_, fun now p m d => ⟨rfl, rfl⟩⟩
  · intro comp h0 h1
    obtain ⟨hl, hu⟩ := hbounds comp h0 h1
    refine ⟨hl, hu, ?_⟩
    have : ((MPL115A2.pressure_hpa_of_comp comp : ℚ) : ℝ) ≤ 115 := by
      exact_mod_cast hu
    linarith
  · intro comp now d h0 h1 hd
    obtain ⟨hl, hu⟩ := hbounds comp h0 h1
    have h115 : ((MPL115A2.pressure_hpa_of_comp comp : ℚ) : ℝ) ≤ 115 := by
      exact_mod_cast hu
    have h800 := (hsim now d hd).1
    intro heq
    rw [heq] at h115
    linarith

/-- C10 witness: the bounds at the mid-scale compensated value 512, the
simulated bounds at the concrete in-range draws, and their disjointness. -/
theorem C10_witness :
    (50 ≤ MPL115A2.pressure_hpa_of_comp 512
      ∧ MPL115A2.pressure_hpa_of_comp 512 ≤ 115
      ∧ ((MPL115A2.pressure_hpa_of_comp 512 : ℚ) : ℝ) < 800)
    ∧ (800 ≤ (TelemetryPacket.new 0 exampleDraws).pressure
      ∧ (TelemetryPacket.new 0 exampleDraws).pressure ≤ 1200)
    ∧ ((MPL115A2.pressure_hpa_of_comp 512 : ℚ) : ℝ)
        ≠ (TelemetryPacket.new 0 exampleDraws).pressure :=
  ⟨C10_pressure_units.1 512 (by norm_num) (by norm_num),
   C10_pressure_units.2.2.2.1 0 exampleDraws exampleDraws_inRange,
   C10_pressure_units.2.2.2.2.1 512 0 exampleDraws (by norm_num) (by norm_num)
     exampleDraws_inRange⟩

end Balloon
